import Mathlib

/-!
ClockService of herbarium_STM32 (`src/source/main.cpp`)

A shallow embedding of the telemetry core of `main.cpp`:

* `authorize_client_write` — the write-authorization callback;
* `getSensors`, `store_sensors`, `send_historic` — the three periodic actions
  registered with `call_every` in `ClockService::start`;
* `set_sensors` — the helper of `ReadOnlyArrayGattCharacteristic` that hands a
  value to `GattServer::write`.

Conventions.  `uint8_t` variables are natural numbers, every increment is
followed by an explicit `% 256`.  The arrays `sensors[17]` and
`historic[48][17]` are maps from indices to bytes; the row index each action
uses is exposed (`store_sensors_row`, `send_historic_row`) so that the bound
`< 48` is a theorem and not an assumption.  `float` values are kept abstract:
the two float operations the program performs (`x * 100` and the conversion
`(uint8_t)(x)`) are parameters (`FloatOps`).  The GATT server is external; the
state records, most recent first, every buffer handed to `GattServer::write`.
-/

namespace Herbarium

/-! ## Write authorization -/

/-- The replies `authorize_client_write` stores in `e->authorizationReply`
(the members of `GattAuthCallbackReply_t` that occur in `main.cpp`). -/
inductive GattAuthCallbackReply_t where
  | AUTH_CALLBACK_REPLY_SUCCESS
  | AUTH_CALLBACK_REPLY_ATTERR_INVALID_OFFSET
  | AUTH_CALLBACK_REPLY_ATTERR_INVALID_ATT_VAL_LENGTH
  | AUTH_CALLBACK_REPLY_ATTERR_WRITE_NOT_PERMITTED
  deriving DecidableEq, Repr

open GattAuthCallbackReply_t

/-- The fields of `GattWriteAuthCallbackParams` read by the callback: the
attribute handle, the offset, the payload length and the payload bytes. -/
structure GattWriteAuthCallbackParams where
  handle : Nat
  offset : Nat
  len : Nat
  data : List Nat
  deriving DecidableEq, Repr

/-- The byte `e->data[0]`. -/
def GattWriteAuthCallbackParams.data0 (e : GattWriteAuthCallbackParams) : Nat :=
  e.data.getD 0 0

/-- `ClockService::authorize_client_write` (main.cpp, lines 238-262).  The
result is the value left in `e->authorizationReply`; `hour_handle` is
`_hour_char.getValueHandle()`. -/
def authorize_client_write (hour_handle : Nat) (e : GattWriteAuthCallbackParams) :
    GattAuthCallbackReply_t :=
  if e.offset ≠ 0 then
    AUTH_CALLBACK_REPLY_ATTERR_INVALID_OFFSET
  else if e.len ≠ 1 then
    AUTH_CALLBACK_REPLY_ATTERR_INVALID_ATT_VAL_LENGTH
  else if e.data0 ≥ 60 ∨ (e.data0 ≥ 24 ∧ e.handle = hour_handle) then
    AUTH_CALLBACK_REPLY_ATTERR_WRITE_NOT_PERMITTED
  else
    AUTH_CALLBACK_REPLY_SUCCESS

/-! ## Program state -/

/-- The float operations of `getSensors`, kept abstract: `castU8 x` is
`(uint8_t)(x)`, `mul100 x` is `x * 100`, `zero` is `0.0f`. -/
structure FloatOps (F : Type) where
  castU8 : F → Nat
  mul100 : F → F
  zero : F

/-- The byte stored by an assignment `sensors[i] = (uint8_t)(x)`. -/
def FloatOps.u8 {F : Type} (fl : FloatOps F) (x : F) : Nat :=
  fl.castU8 x % 256

/-- The three characteristics of the service. -/
inductive Characteristic where
  | hour_char
  | historic_char
  | current_char
  deriving DecidableEq, Repr

/-- The globals of `main.cpp` (lines 41-49) together with the log of buffers
handed to `GattServer::write` (most recent first). -/
structure State (F : Type) where
  temperature : F
  humidity : F
  air_pressure : F
  row : Nat
  historic_row : Nat
  historic : Nat → Nat → Nat
  sensors : Nat → Nat
  server : List (Characteristic × List Nat)

/-- The initial values of the globals: `row = -1` as a `uint8_t`,
`historic_row = 0`, `historic` zero-initialised, `sensors = {1, ..., 17}`. -/
def init {F : Type} (fl : FloatOps F) : State F where
  temperature := fl.zero
  humidity := fl.zero
  air_pressure := fl.zero
  row := 255
  historic_row := 0
  historic := fun _ _ => 0
  sensors := fun i => if i < 17 then i + 1 else 0
  server := []

/-- The assignment `a[i] = v`. -/
def write (a : Nat → Nat) (i v : Nat) : Nat → Nat :=
  fun j => if j = i then v else a j

/-- The assignment `h[r][i] = v`. -/
def write2 (h : Nat → Nat → Nat) (r i v : Nat) : Nat → Nat → Nat :=
  fun r' => if r' = r then write (h r') i v else h r'

/-- The `sizeof(sensors)` bytes starting at `a`. -/
def bytes17 (a : Nat → Nat) : List Nat :=
  (List.range 17).map a

/-- `ReadOnlyArrayGattCharacteristic::set_sensors` (lines 442-446): the
parameter `value` is not used, the buffer handed to `server.write` is the
global `sensors` with length `sizeof(sensors)`. -/
def set_sensors {F : Type} (c : Characteristic) (_value : Nat) (s : State F) : State F :=
  { s with server := (c, bytes17 s.sensors) :: s.server }

/-- The values the hardware delivers during one run of `getSensors`, in
program order; the suffix is the slot the read is stored in. -/
structure Readings (F : Type) where
  temperature : F
  humidity : F
  mq135_3 : F
  soil_m_5 : F
  mq135_7 : F
  air_pressure : F
  mq135_9 : F
  mq9_11 : F
  mq9_12 : F
  mq9_13 : F
  mq135_14 : F
  mq135_15 : F
  mq131_16 : F

/-- `ClockService::getSensors` (lines 267-333).  Line 298 has no right-hand
side of its own, so lines 298-301 are the chained assignment
`sensors[8] = sensors[9] = (uint8_t)(MQ135.read()*100)`. -/
def getSensors {F : Type} (fl : FloatOps F) (rd : Readings F) (s : State F) : State F :=
  let sensors := write s.sensors 0 (s.row % 256)
  let temperature := rd.temperature
  let sensors := write sensors 1 (fl.u8 temperature)
  let humidity := rd.humidity
  let sensors := write sensors 2 (fl.u8 humidity)
  let sensors := write sensors 3 (fl.u8 (fl.mul100 rd.mq135_3))
  let sensors := write sensors 4 1
  let sensors := write sensors 5 (fl.u8 (fl.mul100 rd.soil_m_5))
  let sensors := write sensors 6 1
  let sensors := write sensors 7 (fl.u8 (fl.mul100 rd.mq135_7))
  let air_pressure := rd.air_pressure
  let sensors := write sensors 9 (fl.u8 (fl.mul100 rd.mq135_9))
  let sensors := write sensors 8 (sensors 9)
  let sensors := write sensors 10 1
  let sensors := write sensors 11 (fl.u8 (fl.mul100 rd.mq9_11))
  let sensors := write sensors 12 (fl.u8 (fl.mul100 rd.mq9_12))
  let sensors := write sensors 13 (fl.u8 (fl.mul100 rd.mq9_13))
  let sensors := write sensors 14 (fl.u8 (fl.mul100 rd.mq135_14))
  let sensors := write sensors 15 (fl.u8 (fl.mul100 rd.mq135_15))
  let sensors := write sensors 16 (fl.u8 (fl.mul100 rd.mq131_16))
  set_sensors Characteristic.current_char (sensors 0)
    { s with temperature, humidity, air_pressure, sensors }

/-- The row index `store_sensors` writes: `row` after `row++`. -/
def store_sensors_row {F : Type} (s : State F) : Nat :=
  (s.row + 1) % 256

/-- `ClockService::store_sensors` (lines 338-350). -/
def store_sensors {F : Type} (s : State F) : State F :=
  let row := store_sensors_row s
  let sensors := write s.sensors 0 row
  let historic :=
    (List.range 17).foldl (fun h i => write2 h row i (sensors i)) s.historic
  let row := if row ≥ 47 then 0 else row
  { s with row, sensors, historic }

/-- The row index `send_historic` uses: `historic_row` before the increment. -/
def send_historic_row {F : Type} (s : State F) : Nat :=
  s.historic_row

/-- `ClockService::send_historic` (lines 355-366). -/
def send_historic {F : Type} (s : State F) : State F :=
  let s1 := set_sensors Characteristic.historic_char (s.historic (send_historic_row s) 0) s
  let historic_row := (s.historic_row + 1) % 256
  let historic_row := if historic_row ≥ 47 then 0 else historic_row
  { s1 with historic_row }

/-! ## The scheduler -/

/-- One firing of a periodic action of `ClockService::start` (lines 137-139):
collect is `getSensors`, retain is `store_sensors`, publish is
`send_historic`. -/
inductive Tick (F : Type) where
  | collect (rd : Readings F)
  | retain
  | publish

/-- One action run to completion. -/
def step {F : Type} (fl : FloatOps F) (s : State F) : Tick F → State F
  | Tick.collect rd => getSensors fl rd s
  | Tick.retain => store_sensors s
  | Tick.publish => send_historic s

/-- The state after the ticks of `ts` have run in order from `s`. -/
def run {F : Type} (fl : FloatOps F) (s : State F) (ts : List (Tick F)) : State F :=
  ts.foldl (step fl) s

/-- Number of retain ticks in a schedule. -/
def retains {F : Type} : List (Tick F) → Nat
  | [] => 0
  | Tick.retain :: ts => retains ts + 1
  | _ :: ts => retains ts

/-- Number of publish ticks in a schedule. -/
def publishes {F : Type} : List (Tick F) → Nat
  | [] => 0
  | Tick.publish :: ts => publishes ts + 1
  | _ :: ts => publishes ts

/-- The rows of `historic` written by the retain ticks of `ts`, run from `s`. -/
def writtenRows {F : Type} (fl : FloatOps F) (s : State F) : List (Tick F) → List Nat
  | [] => []
  | Tick.retain :: ts => store_sensors_row s :: writtenRows fl (store_sensors s) ts
  | t :: ts => writtenRows fl (step fl s t) ts

/-- The buffer most recently handed to `GattServer::write` for `c`. -/
def lastWrite {F : Type} (c : Characteristic) (s : State F) : Option (List Nat) :=
  (s.server.find? (fun p => decide (p.1 = c))).map Prod.snd

/-- The cursor invariant: `row` is its initial value 255 or below 47, and
`historic_row` is below 47. -/
def Inv {F : Type} (s : State F) : Prop :=
  (s.row = 255 ∨ s.row < 47) ∧ s.historic_row < 47

/-! ## A concrete instance of the float operations, for evaluation -/

/-- Readings taken as natural numbers: conversion is the identity, `x * 100`
is multiplication. -/
def natOps : FloatOps Nat where
  castU8 := fun x => x
  mul100 := fun x => x * 100
  zero := 0

/-- A reading in which every channel of the HTS221 delivers `t` and every
other channel delivers zero. -/
def readingT (t : Nat) : Readings Nat where
  temperature := t
  humidity := 0
  mq135_3 := 0
  soil_m_5 := 0
  mq135_7 := 0
  air_pressure := 0
  mq135_9 := 0
  mq9_11 := 0
  mq9_12 := 0
  mq9_13 := 0
  mq135_14 := 0
  mq135_15 := 0
  mq131_16 := 0

/-- The schedule in which append number `k` (for `k = 1, ..., n`) is preceded
by a collect tick whose temperature reading is `k`. -/
def taggedAppends (n : Nat) : List (Tick Nat) :=
  (List.range n).flatMap (fun k => [Tick.collect (readingT (k + 1)), Tick.retain])

/-- A short schedule: five tagged appends followed by two publish ticks. -/
def sampleSchedule : List (Tick Nat) :=
  taggedAppends 5 ++ [Tick.publish, Tick.publish]

/-! ## Write authorization: theorems -/

/-- C1: a write request is answered `AUTH_CALLBACK_REPLY_SUCCESS` exactly when
its offset is 0, its length is 1, its first payload byte is below 60 and, if
the target is the hour characteristic, below 24.  In particular the hour
characteristic with value 23 and any other characteristic with value 59 are
authorized, and the hour characteristic with value 24 is not. -/
theorem C1_authorized_iff (hour_handle : Nat) (e : GattWriteAuthCallbackParams) :
    (authorize_client_write hour_handle e = AUTH_CALLBACK_REPLY_SUCCESS ↔
        (e.offset = 0 ∧ e.len = 1 ∧ e.data0 < 60 ∧
          (e.handle = hour_handle → e.data0 < 24))) ∧
      authorize_client_write hour_handle ⟨hour_handle, 0, 1, [23]⟩
        = AUTH_CALLBACK_REPLY_SUCCESS ∧
      authorize_client_write hour_handle ⟨hour_handle + 1, 0, 1, [59]⟩
        = AUTH_CALLBACK_REPLY_SUCCESS ∧
      authorize_client_write hour_handle ⟨hour_handle, 0, 1, [24]⟩
        ≠ AUTH_CALLBACK_REPLY_SUCCESS := by
  refine ⟨?_, ?_, ?_, ?_⟩
  · unfold authorize_client_write
    constructor
    · intro h
      split_ifs at h with h1 h2 h3
      have h0 : e.offset = 0 := by omega
      have hl : e.len = 1 := by omega
      refine ⟨h0, hl, ?_, ?_⟩
      · by_contra hc
        exact h3 (Or.inl (by omega))
      · intro hh
        by_contra hc
        exact h3 (Or.inr ⟨by omega, hh⟩)
    · rintro ⟨h0, hl, h60, h24⟩
      have h3 : ¬ (e.data0 ≥ 60 ∨ (e.data0 ≥ 24 ∧ e.handle = hour_handle)) := by
        rintro (h | ⟨h, hh⟩)
        · omega
        · have := h24 hh
          omega
      simp [h0, hl, h3]
  · simp [authorize_client_write, GattWriteAuthCallbackParams.data0]
  · simp [authorize_client_write, GattWriteAuthCallbackParams.data0]
  · simp [authorize_client_write, GattWriteAuthCallbackParams.data0]

/-- Instance of C1 at the request (hour characteristic, offset 0, length 1,
value 23) with the hour handle 3. -/
theorem C1_authorized_iff_witness :
    authorize_client_write 3 ⟨3, 0, 1, [23]⟩ = AUTH_CALLBACK_REPLY_SUCCESS :=
  (C1_authorized_iff 3 ⟨3, 0, 1, [23]⟩).1.2 ⟨rfl, rfl, by decide, fun _ => by decide⟩

/-- C6 as stated fails: for the value 60 (offset 0, length 1) the reply is
`AUTH_CALLBACK_REPLY_ATTERR_WRITE_NOT_PERMITTED`, on the hour characteristic
(handle 3) and on another one (handle 5) alike, the very reply given to the
hour characteristic for the value 24; no reply distinct from it is produced. -/
theorem C6_counterexample :
    authorize_client_write 3 ⟨5, 0, 1, [60]⟩
        = AUTH_CALLBACK_REPLY_ATTERR_WRITE_NOT_PERMITTED ∧
      authorize_client_write 3 ⟨3, 0, 1, [60]⟩
        = AUTH_CALLBACK_REPLY_ATTERR_WRITE_NOT_PERMITTED ∧
      authorize_client_write 3 ⟨3, 0, 1, [24]⟩
        = AUTH_CALLBACK_REPLY_ATTERR_WRITE_NOT_PERMITTED ∧
      ¬ (∀ e : GattWriteAuthCallbackParams, e.offset = 0 → e.len = 1 → e.data0 ≥ 60 →
          authorize_client_write 3 e ≠ AUTH_CALLBACK_REPLY_ATTERR_WRITE_NOT_PERMITTED) := by
  refine ⟨by decide, by decide, by decide, ?_⟩
  intro h
  exact h ⟨5, 0, 1, [60]⟩ rfl rfl (by decide) (by decide)

/-- C6, amended: every write request with offset 0, length 1 and first payload
byte at least 60 is rejected, on every target characteristic, with the reply
`AUTH_CALLBACK_REPLY_ATTERR_WRITE_NOT_PERMITTED`. -/
theorem C6_value_ge_60_write_not_permitted (hour_handle : Nat)
    (e : GattWriteAuthCallbackParams) (h0 : e.offset = 0) (hl : e.len = 1)
    (hv : e.data0 ≥ 60) :
    authorize_client_write hour_handle e
      = AUTH_CALLBACK_REPLY_ATTERR_WRITE_NOT_PERMITTED := by
  simp [authorize_client_write, h0, hl, hv]

/-- Instance of the amended C6 at (handle 5, offset 0, length 1, value 200). -/
theorem C6_value_ge_60_write_not_permitted_witness :
    authorize_client_write 3 ⟨5, 0, 1, [200]⟩
      = AUTH_CALLBACK_REPLY_ATTERR_WRITE_NOT_PERMITTED :=
  C6_value_ge_60_write_not_permitted 3 ⟨5, 0, 1, [200]⟩ rfl rfl (by decide)

/-- C7: every write request with a non-zero offset is rejected with
`AUTH_CALLBACK_REPLY_ATTERR_INVALID_OFFSET`, whatever its target, length and
payload are. -/
theorem C7_nonzero_offset_invalid_offset (hour_handle : Nat)
    (e : GattWriteAuthCallbackParams) (h : e.offset ≠ 0) :
    authorize_client_write hour_handle e = AUTH_CALLBACK_REPLY_ATTERR_INVALID_OFFSET := by
  simp [authorize_client_write, h]

/-- Instance of C7 at (hour characteristic, offset 1, length 1, value 5). -/
theorem C7_nonzero_offset_invalid_offset_witness :
    authorize_client_write 3 ⟨3, 1, 1, [5]⟩ = AUTH_CALLBACK_REPLY_ATTERR_INVALID_OFFSET :=
  C7_nonzero_offset_invalid_offset 3 ⟨3, 1, 1, [5]⟩ (by decide)

/-- C8: every write request with offset 0 and a length other than 1 is rejected
with `AUTH_CALLBACK_REPLY_ATTERR_INVALID_ATT_VAL_LENGTH`, whatever its target
and payload bytes are. -/
theorem C8_bad_length_invalid_length (hour_handle : Nat)
    (e : GattWriteAuthCallbackParams) (h0 : e.offset = 0) (hl : e.len ≠ 1) :
    authorize_client_write hour_handle e
      = AUTH_CALLBACK_REPLY_ATTERR_INVALID_ATT_VAL_LENGTH := by
  simp [authorize_client_write, h0, hl]

/-- Instance of C8 at (hour characteristic, offset 0, length 2, bytes 5, 6). -/
theorem C8_bad_length_invalid_length_witness :
    authorize_client_write 3 ⟨3, 0, 2, [5, 6]⟩
      = AUTH_CALLBACK_REPLY_ATTERR_INVALID_ATT_VAL_LENGTH :=
  C8_bad_length_invalid_length 3 ⟨3, 0, 2, [5, 6]⟩ rfl (by decide)

/-! ## History buffer: lemmas -/

/-- Reading back after the assignment `h[r][i] = v`. -/
theorem write2_apply (h : Nat → Nat → Nat) (r i v r' j : Nat) :
    write2 h r i v r' j = if r' = r ∧ j = i then v else h r' j := by
  unfold write2 write
  by_cases hr : r' = r
  · by_cases hj : j = i
    · simp [hr, hj]
    · simp [hr, hj]
  · simp [hr]

/-- The copy loop of `store_sensors` replaces the first `n` slots of row `row`
by the values `f 0, ..., f (n - 1)` and leaves everything else alone. -/
theorem foldl_write2 (f : Nat → Nat) (row n : Nat) (h : Nat → Nat → Nat) (r j : Nat) :
    (List.range n).foldl (fun h i => write2 h row i (f i)) h r j
      = if r = row ∧ j < n then f j else h r j := by
  induction n with
  | zero => simp
  | succ n ih =>
    rw [List.range_succ, List.foldl_append]
    simp only [List.foldl_cons, List.foldl_nil]
    rw [write2_apply, ih]
    by_cases hr : r = row
    · by_cases hj : j = n
      · subst hj
        simp [hr]
      · have hlt : (j < n + 1) ↔ (j < n) := by omega
        simp only [hr, hj, hlt, and_false, if_false]
    · simp only [hr, false_and, if_false]

/-- What `store_sensors` leaves in `historic`. -/
theorem store_sensors_historic {F : Type} (s : State F) (r j : Nat) :
    (store_sensors s).historic r j
      = if r = store_sensors_row s ∧ j < 17
        then write s.sensors 0 (store_sensors_row s) j else s.historic r j := by
  unfold store_sensors
  exact foldl_write2 _ _ _ _ _ _

/-- The cursor `row` is below 47 after every `store_sensors`. -/
theorem store_sensors_row_lt {F : Type} (s : State F) : (store_sensors s).row < 47 := by
  unfold store_sensors
  simp only
  split_ifs with h <;> omega

/-- The cursor `historic_row` is below 47 after every `send_historic`. -/
theorem send_historic_row_lt {F : Type} (s : State F) :
    (send_historic s).historic_row < 47 := by
  unfold send_historic
  simp only
  split_ifs with h <;> omega

/-- The initial state satisfies the cursor invariant. -/
theorem Inv_init {F : Type} (fl : FloatOps F) : Inv (init fl) := by
  simp [Inv, init]

/-- Every action preserves the cursor invariant. -/
theorem Inv_step {F : Type} (fl : FloatOps F) (s : State F) (t : Tick F) (h : Inv s) :
    Inv (step fl s t) := by
  cases t with
  | collect rd => exact h
  | retain => exact ⟨Or.inr (store_sensors_row_lt s), h.2⟩
  | publish => exact ⟨h.1, send_historic_row_lt s⟩

/-- Every schedule preserves the cursor invariant. -/
theorem Inv_run {F : Type} (fl : FloatOps F) (ts : List (Tick F)) :
    ∀ s : State F, Inv s → Inv (run fl s ts) := by
  induction ts with
  | nil => intro s h; exact h
  | cons t ts ih =>
    intro s h
    exact ih (step fl s t) (Inv_step fl s t h)

/-- Under the cursor invariant the row `store_sensors` writes is below 48. -/
theorem Inv_store_row_lt {F : Type} (s : State F) (h : Inv s) : store_sensors_row s < 48 := by
  unfold store_sensors_row
  rcases h.1 with h | h
  · simp [h]
  · omega

/-- Before the first wrap the write cursor counts the retain ticks: the row the
next `store_sensors` would write moves up by one per retain tick. -/
theorem store_row_run {F : Type} (fl : FloatOps F) (ts : List (Tick F)) :
    ∀ s : State F, store_sensors_row s + retains ts ≤ 47 →
      store_sensors_row (run fl s ts) = store_sensors_row s + retains ts := by
  induction ts with
  | nil => intro s _; rfl
  | cons t ts ih =>
    intro s h
    cases t with
    | collect rd =>
      have h1 : retains (Tick.collect rd :: ts) = retains ts := rfl
      rw [h1] at h ⊢
      exact ih (getSensors fl rd s) h
    | publish =>
      have h1 : retains (Tick.publish :: ts : List (Tick F)) = retains ts := rfl
      rw [h1] at h ⊢
      exact ih (send_historic s) h
    | retain =>
      have h1 : retains (Tick.retain :: ts : List (Tick F)) = retains ts + 1 := rfl
      rw [h1] at h ⊢
      have h2 : store_sensors_row (store_sensors s) = store_sensors_row s + 1 := by
        have h3 : (store_sensors s).row = store_sensors_row s := by
          unfold store_sensors
          simp only
          rw [if_neg (by omega)]
        unfold store_sensors_row at h3 h ⊢
        rw [h3]
        omega
      have h4 := ih (store_sensors s) (by omega)
      have h5 : run fl s (Tick.retain :: ts) = run fl (store_sensors s) ts := rfl
      rw [h5, h4, h2]
      omega

/-- Before the first wrap the read cursor counts the publish ticks. -/
theorem historic_row_run {F : Type} (fl : FloatOps F) (ts : List (Tick F)) :
    ∀ s : State F, s.historic_row + publishes ts ≤ 46 →
      (run fl s ts).historic_row = s.historic_row + publishes ts := by
  induction ts with
  | nil => intro s _; rfl
  | cons t ts ih =>
    intro s h
    cases t with
    | collect rd =>
      have h1 : publishes (Tick.collect rd :: ts) = publishes ts := rfl
      rw [h1] at h ⊢
      exact ih (getSensors fl rd s) h
    | retain =>
      have h1 : publishes (Tick.retain :: ts : List (Tick F)) = publishes ts := rfl
      rw [h1] at h ⊢
      exact ih (store_sensors s) h
    | publish =>
      have h1 : publishes (Tick.publish :: ts : List (Tick F)) = publishes ts + 1 := rfl
      rw [h1] at h ⊢
      have h2 : (send_historic s).historic_row = s.historic_row + 1 := by
        unfold send_historic
        simp only
        have h3 : (s.historic_row + 1) % 256 = s.historic_row + 1 := by omega
        rw [h3, if_neg (by omega)]
      have h4 := ih (send_historic s) (by omega)
      have h5 : run fl s (Tick.publish :: ts) = run fl (send_historic s) ts := rfl
      rw [h5, h4, h2]
      omega

/-- Rows recorded as written keep their own index in slot 0 along a run. -/
theorem slot0_run {F : Type} (fl : FloatOps F) (ts : List (Tick F)) :
    ∀ (s : State F) (W : List Nat), (∀ r ∈ W, s.historic r 0 = r) →
      ∀ r ∈ W ++ writtenRows fl s ts, (run fl s ts).historic r 0 = r := by
  induction ts with
  | nil =>
    intro s W h r hr
    have hr1 : r ∈ W := by simpa [writtenRows] using hr
    exact h r hr1
  | cons t ts ih =>
    intro s W h r hr
    cases t with
    | collect rd =>
      exact ih (getSensors fl rd s) W h r hr
    | publish =>
      exact ih (send_historic s) W h r hr
    | retain =>
      have hW : ∀ q ∈ W ++ [store_sensors_row s], (store_sensors s).historic q 0 = q := by
        intro q hq
        rw [store_sensors_historic]
        by_cases hq1 : q = store_sensors_row s
        · simp [hq1, write]
        · have hq2 : q ∈ W := by
            rcases List.mem_append.1 hq with hq3 | hq3
            · exact hq3
            · exact absurd (List.mem_singleton.1 hq3) hq1
          simp [hq1, h q hq2]
      have hr1 : r ∈ (W ++ [store_sensors_row s]) ++ writtenRows fl (store_sensors s) ts := by
        simpa [writtenRows] using hr
      exact ih (store_sensors s) (W ++ [store_sensors_row s]) hW r hr1

/-- Every row written along a run that starts under the cursor invariant is
below 48. -/
theorem writtenRows_lt {F : Type} (fl : FloatOps F) (ts : List (Tick F)) :
    ∀ s : State F, Inv s → ∀ r ∈ writtenRows fl s ts, r < 48 := by
  induction ts with
  | nil =>
    intro s _ r hr
    simp [writtenRows] at hr
  | cons t ts ih =>
    intro s h r hr
    cases t with
    | collect rd => exact ih (getSensors fl rd s) (Inv_step fl s (Tick.collect rd) h) r hr
    | publish => exact ih (send_historic s) (Inv_step fl s Tick.publish h) r hr
    | retain =>
      have hr1 : r = store_sensors_row s ∨ r ∈ writtenRows fl (store_sensors s) ts := by
        simpa [writtenRows] using hr
      rcases hr1 with hr2 | hr2
      · rw [hr2]
        exact Inv_store_row_lt s h
      · exact ih (store_sensors s) (Inv_step fl s Tick.retain h) r hr2

set_option maxRecDepth 100000

/-! ## History buffer and scheduler: theorems -/

/-- C2 evaluated on the code: `send_historic` hands the global `sensors` to
the transport for the historic characteristic, whatever `historic` holds.  At
the first publish tick after start-up the 17 bytes handed over are
1, 2, ..., 17 while `historic[historic_row]` holds 17 zero bytes. -/
theorem C2_send_historic_hands_over_sensors :
    (∀ (F : Type) (s : State F),
        lastWrite Characteristic.historic_char (send_historic s)
          = some (bytes17 s.sensors)) ∧
      lastWrite Characteristic.historic_char (send_historic (init natOps))
        = some [1, 2, 3, 4, 5, 6, 7, 8, 9, 10, 11, 12, 13, 14, 15, 16, 17] ∧
      bytes17 ((init natOps).historic (send_historic_row (init natOps)))
        = [0, 0, 0, 0, 0, 0, 0, 0, 0, 0, 0, 0, 0, 0, 0, 0, 0] := by
  refine ⟨?_, by decide, by decide⟩
  intro F s
  simp [lastWrite, send_historic, set_sensors]

/-- C3 evaluated on the code: 49 appends, append number `k` tagged by the
temperature byte `k` in slot 1.  The second append lands in row 1; the rows
written are 0, 1, ..., 47 and then 1 again; afterwards the tags held by rows
0, ..., 47 are 1, 49, 3, 4, ..., 48: row 0 still holds the record of append 1
and no row holds the record of append 2, although the 48 most recent appends
are numbers 2 to 49. -/
theorem C3_first_record_survives_49_appends :
    (run natOps (init natOps) (taggedAppends 2)).historic 1 1 = 2 ∧
      writtenRows natOps (init natOps) (taggedAppends 49) = List.range 48 ++ [1] ∧
      (List.range 48).map
          (fun r => (run natOps (init natOps) (taggedAppends 49)).historic r 1)
        = [1, 49, 3, 4, 5, 6, 7, 8, 9, 10, 11, 12, 13, 14, 15, 16, 17, 18, 19, 20,
            21, 22, 23, 24, 25, 26, 27, 28, 29, 30, 31, 32, 33, 34, 35, 36, 37, 38,
            39, 40, 41, 42, 43, 44, 45, 46, 47, 48] ∧
      (run natOps (init natOps) (taggedAppends 49)).historic 0 1 = 1 ∧
      2 ∉ (List.range 48).map
          (fun r => (run natOps (init natOps) (taggedAppends 49)).historic r 1) := by
  decide

/-- C4 as stated fails: after one retain tick `row` is 0, not congruent to 1
modulo 48; after 95 retain ticks `row` is 0 again while 95 mod 48 is 47; after
47 publish ticks `historic_row` is 0 while 47 mod 48 is 47. -/
theorem C4_counterexample :
    (run natOps (init natOps) (List.replicate 1 Tick.retain)).row % 48 ≠ 1 % 48 ∧
      (run natOps (init natOps) (List.replicate 95 Tick.retain)).row % 48 ≠ 95 % 48 ∧
      (run natOps (init natOps) (List.replicate 47 Tick.publish)).historic_row
        ≠ 47 % 48 := by
  decide

/-- C4, amended: up to the wrap both cursors advance by exactly one per call.
In every schedule run from the initial state, if the number `n` of retain
ticks satisfies 1 ≤ n ≤ 47 then `row` is `n - 1`, and if the number `n` of
publish ticks is at most 46 then `historic_row` is `n`. -/
theorem C4_cursors_count_ticks_before_wrap {F : Type} (fl : FloatOps F)
    (ts : List (Tick F)) :
    (1 ≤ retains ts → retains ts ≤ 47 →
        (run fl (init fl) ts).row = retains ts - 1) ∧
      (publishes ts ≤ 46 → (run fl (init fl) ts).historic_row = publishes ts) := by
  constructor
  · intro h1 h47
    have h0 : store_sensors_row (init fl) = 0 := by simp [store_sensors_row, init]
    have h := store_row_run fl ts (init fl) (by omega)
    rw [h0] at h
    have hinv := (Inv_run fl ts (init fl) (Inv_init fl)).1
    unfold store_sensors_row at h
    rcases hinv with h255 | hlt
    · rw [h255] at h
      omega
    · omega
  · intro h46
    have h := historic_row_run fl ts (init fl) (by
      have : (init fl).historic_row = 0 := rfl
      omega)
    have h0 : (init fl).historic_row = 0 := rfl
    rw [h0] at h
    omega

/-- Instance of the amended C4 at five retain ticks interleaved with collect
ticks and followed by two publish ticks: `row` is 4 and `historic_row` is 2. -/
theorem C4_cursors_count_ticks_before_wrap_witness :
    1 ≤ retains sampleSchedule ∧ retains sampleSchedule ≤ 47 ∧
      publishes sampleSchedule ≤ 46 ∧
      (run natOps (init natOps) sampleSchedule).row = retains sampleSchedule - 1 ∧
      (run natOps (init natOps) sampleSchedule).historic_row = publishes sampleSchedule ∧
      retains sampleSchedule = 5 ∧ publishes sampleSchedule = 2 :=
  ⟨by decide, by decide, by decide,
    (C4_cursors_count_ticks_before_wrap natOps sampleSchedule).1 (by decide) (by decide),
    (C4_cursors_count_ticks_before_wrap natOps sampleSchedule).2 (by decide),
    by decide, by decide⟩

/-- C5: in every state reached from the initial state by any schedule of
collect, retain and publish ticks, the row `store_sensors` would write and the
row `send_historic` would read are below 48, and so is every row that the
retain ticks of the schedule have written. -/
theorem C5_row_indices_in_range {F : Type} (fl : FloatOps F) (ts : List (Tick F)) :
    store_sensors_row (run fl (init fl) ts) < 48 ∧
      send_historic_row (run fl (init fl) ts) < 48 ∧
      ∀ r ∈ writtenRows fl (init fl) ts, r < 48 := by
  have hinv := Inv_run fl ts (init fl) (Inv_init fl)
  refine ⟨Inv_store_row_lt _ hinv, ?_, writtenRows_lt fl ts (init fl) (Inv_init fl)⟩
  unfold send_historic_row
  have := hinv.2
  omega

/-- Instance of C5 after 49 appends: the next rows used are in range and row
47, which has been written, is below 48. -/
theorem C5_row_indices_in_range_witness :
    store_sensors_row (run natOps (init natOps) (taggedAppends 49)) < 48 ∧
      send_historic_row (run natOps (init natOps) (taggedAppends 49)) < 48 ∧
      47 ∈ writtenRows natOps (init natOps) (taggedAppends 49) ∧ 47 < 48 :=
  ⟨(C5_row_indices_in_range natOps (taggedAppends 49)).1,
    (C5_row_indices_in_range natOps (taggedAppends 49)).2.1,
    by decide,
    (C5_row_indices_in_range natOps (taggedAppends 49)).2.2 47 (by decide)⟩

/-- C9: in every state reached from the initial state by any schedule of
collect, retain and publish ticks, every row of `historic` written by a retain
tick of the schedule has slot 0 equal to its own index; and each
`store_sensors` leaves in slot 0 of the row it writes the index of that row. -/
theorem C9_written_rows_hold_their_index {F : Type} (fl : FloatOps F)
    (ts : List (Tick F)) :
    (∀ r ∈ writtenRows fl (init fl) ts, (run fl (init fl) ts).historic r 0 = r) ∧
      ∀ s : State F,
        (store_sensors s).historic (store_sensors_row s) 0 = store_sensors_row s := by
  constructor
  · intro r hr
    exact slot0_run fl ts (init fl) [] (by simp) r (by simpa using hr)
  · intro s
    rw [store_sensors_historic]
    simp [write]

/-- Instance of C9 after 49 appends: row 47 has been written and its slot 0
holds 47. -/
theorem C9_written_rows_hold_their_index_witness :
    47 ∈ writtenRows natOps (init natOps) (taggedAppends 49) ∧
      (run natOps (init natOps) (taggedAppends 49)).historic 47 0 = 47 :=
  ⟨by decide, (C9_written_rows_hold_their_index natOps (taggedAppends 49)).1 47 (by decide)⟩

/-- C10: after `getSensors`, slot 8 equals slot 9, both are the byte conversion
of the MQ135 reading of line 301 times 100, and changing only the pressure
reading changes neither the array `sensors` nor the buffer handed to the
transport for the current characteristic. -/
theorem C10_pressure_slot_copies_benzene {F : Type} (fl : FloatOps F)
    (rd : Readings F) (s : State F) :
    (getSensors fl rd s).sensors 8 = (getSensors fl rd s).sensors 9 ∧
      (getSensors fl rd s).sensors 9 = fl.u8 (fl.mul100 rd.mq135_9) ∧
      ∀ p : F,
        (getSensors fl { rd with air_pressure := p } s).sensors
            = (getSensors fl rd s).sensors ∧
          lastWrite Characteristic.current_char (getSensors fl { rd with air_pressure := p } s)
            = lastWrite Characteristic.current_char (getSensors fl rd s) := by
  refine ⟨?_, ?_, ?_⟩
  · simp [getSensors, set_sensors, write]
  · simp [getSensors, set_sensors, write]
  · intro p
    exact ⟨rfl, rfl⟩

end Herbarium
